import Mathlib

/-!
Shallow embedding of `slackython.py`, a small Slack-notification library:
the `NotificationLevel` enum, the `Slackython` notifier object with its
payload builder `_generate_message_slack`, the retrying transport
`_send_to_webhook`, and the three public send operations.  Stateful code
is embedded by passing the object's fields explicitly and returning the
(possibly updated) state alongside each result; the network is modelled
by a sequence of per-attempt outcomes.
-/

/-- The `NotificationLevel` enum.  `value` below is the color string
carried by each member. -/
inductive NotificationLevel where
  | NORMAL
  | INFORMATION
  | CRITICAL
deriving DecidableEq, Repr

/-- The `.value` of each `NotificationLevel` member, exactly as in the
source enum. -/
def NotificationLevel.value : NotificationLevel → String
  | NotificationLevel.NORMAL => "#00C853"
  | NotificationLevel.INFORMATION => "#FFD600"
  | NotificationLevel.CRITICAL => "#d50000"

/-- One attachment dict of a Slack payload: keys `text` and `color`. -/
structure Attachment where
  text : String
  color : String
deriving DecidableEq, Repr

/-- A Slack payload dict: an optional top-level `text` key (the title,
present exactly when set by the builder) and the `attachments` list. -/
structure Payload where
  text : Option String
  attachments : List Attachment
deriving DecidableEq, Repr

/-- The `Slackython` notifier object: the fields `__init__` stores on
`self`. -/
structure Slackython where
  webhook_url : String
  slack_supervisors : List String
  base_template : Payload
  attachment_template : Attachment
deriving DecidableEq, Repr

/-- The constructor `Slackython.__init__`: stores the webhook url, the
supervisor list (empty when the argument is omitted or `None`) and the two
payload templates. -/
def Slackython.init (webhook : String)
    (slack_supervisors : Option (List String)) : Slackython :=
  { webhook_url := webhook
    slack_supervisors :=
      match slack_supervisors with
      | none => []
      | some l => l
    base_template := { text := none, attachments := [] }
    attachment_template := { text := "", color := "" } }

/-- Outcome of one `requests.post` attempt: an HTTP response with a status
code, or one of the exception classes named by the `except` clauses of
`_send_to_webhook`. -/
inductive AttemptOutcome where
  | response (status_code : Nat)
  | timeout
  | tooManyRedirects
  | requestException (e : String)
deriving DecidableEq, Repr

/-- Observable outcome of `_send_to_webhook`: how many POST attempts were
performed, and which exception (if any) escaped to the caller.  The Python
method itself returns `None`, so `raised` and the logging side effects are
its only observables. -/
structure SendResult where
  attempts : Nat
  raised : Option String
deriving DecidableEq, Repr

/-- The `for retry in range(retries)` loop of `_send_to_webhook`: the
first argument after `outcomes` is the index of the next attempt, the
second the remaining budget.  A 200 response breaks out of the loop; a
non-200 response only logs and lets the loop continue, and each of the
three `except` clauses (`Timeout`, `TooManyRedirects`, and their base
class `RequestException`) catches its exception, logs, and lets the loop
continue — no branch lets an exception escape. -/
def sendLoop (outcomes : Nat → AttemptOutcome) : Nat → Nat → SendResult
  | _, 0 => { attempts := 0, raised := none }
  | retry, budget + 1 =>
    match outcomes retry with
    | AttemptOutcome.response code =>
      if code = 200 then
        { attempts := 1, raised := none }
      else
        let rest := sendLoop outcomes (retry + 1) budget
        { attempts := 1 + rest.attempts, raised := rest.raised }
    | AttemptOutcome.timeout =>
      let rest := sendLoop outcomes (retry + 1) budget
      { attempts := 1 + rest.attempts, raised := rest.raised }
    | AttemptOutcome.tooManyRedirects =>
      let rest := sendLoop outcomes (retry + 1) budget
      { attempts := 1 + rest.attempts, raised := rest.raised }
    | AttemptOutcome.requestException _ =>
      let rest := sendLoop outcomes (retry + 1) budget
      { attempts := 1 + rest.attempts, raised := rest.raised }

/-- Default value of the `retries` parameter of `_send_to_webhook`. -/
def defaultRetries : Nat := 3

/-- `Slackython._send_to_webhook`: POST `data` to the stored webhook url
up to `retries` times; `outcomes` models the network's response to each
attempt.  Returns the observable result together with the object state
after the call. -/
def Slackython.send_to_webhook (self : Slackython) (data : Payload)
    (outcomes : Nat → AttemptOutcome) (retries : Nat) :
    SendResult × Slackython :=
  let _ := data
  (sendLoop outcomes 0 retries, self)

/-- `Slackython._generate_message_slack`: builds the payload dict.  The
`copy.deepcopy` calls give the local dicts value semantics, so the
appends below never reach the templates stored on `self`; the method
returns the payload together with the object state after the call. -/
def Slackython.generate_message_slack (self : Slackython) (message : String)
    (level : NotificationLevel) (title : Option String)
    (tagged_members : Option (List String)) : Payload × Slackython :=
  let data := self.base_template
  let data :=
    match title with
    | some t => { data with text := some t }
    | none => data
  let event := { self.attachment_template with
                   text := message, color := level.value }
  let data := { data with attachments := data.attachments ++ [event] }
  let data :=
    match tagged_members with
    | none => data
    | some members =>
      members.foldl
        (fun d member =>
          let tagged_event :=
            { self.attachment_template with
                text := "<@" ++ member ++ ">", color := level.value }
          { d with attachments := d.attachments ++ [tagged_event] })
        data
  (data, self)

/-- `Slackython.send_message`: build the payload with level NORMAL and
deliver it with the default retry budget. -/
def Slackython.send_message (self : Slackython) (message : String)
    (title : Option String) (tagged_members : Option (List String))
    (outcomes : Nat → AttemptOutcome) :
    Payload × SendResult × Slackython :=
  let g := self.generate_message_slack message
    NotificationLevel.NORMAL title tagged_members
  let t := g.2.send_to_webhook g.1 outcomes defaultRetries
  (g.1, t.1, t.2)

/-- `Slackython.send_information`: build the payload with level
INFORMATION and deliver it with the default retry budget. -/
def Slackython.send_information (self : Slackython) (message : String)
    (title : Option String) (tagged_members : Option (List String))
    (outcomes : Nat → AttemptOutcome) :
    Payload × SendResult × Slackython :=
  let g := self.generate_message_slack message
    NotificationLevel.INFORMATION title tagged_members
  let t := g.2.send_to_webhook g.1 outcomes defaultRetries
  (g.1, t.1, t.2)

/-- `Slackython.send_error`: build the payload with level CRITICAL —
substituting the stored supervisor list when `tagged_members` is `None` —
and deliver it with the default retry budget. -/
def Slackython.send_error (self : Slackython) (message : String)
    (title : Option String) (tagged_members : Option (List String))
    (outcomes : Nat → AttemptOutcome) :
    Payload × SendResult × Slackython :=
  let tagged_members_list :=
    match tagged_members with
    | none => some self.slack_supervisors
    | some l => some l
  let g := self.generate_message_slack message
    NotificationLevel.CRITICAL title tagged_members_list
  let t := g.2.send_to_webhook g.1 outcomes defaultRetries
  (g.1, t.1, t.2)

/-- Unrolling the tagging loop of `_generate_message_slack`: folding an
append of one attachment per member appends the mapped list, in order. -/
lemma foldl_append_map (g : String → Attachment) :
    ∀ (members : List String) (d : Payload),
      List.foldl
        (fun d member =>
          { text := d.text, attachments := d.attachments ++ [g member] })
        d members
      = { text := d.text, attachments := d.attachments ++ members.map g }
  | [], d => by simp
  | a :: as, d => by
    simp only [List.foldl_cons, List.map_cons]
    rw [foldl_append_map g as]
    simp [List.append_assoc]

/-- Closed form of `_generate_message_slack` on a freshly constructed
notifier: the payload's title is exactly the one provided, and its
attachments are the message block followed by one mention block per
tagged member, all in the call's severity color. -/
lemma generate_init_spec (url : String) (sup : Option (List String))
    (m : String) (level : NotificationLevel) (title : Option String)
    (tm : Option (List String)) :
    (Slackython.init url sup).generate_message_slack m level title tm =
      ({ text := title
         attachments :=
           { text := m, color := level.value } ::
             (match tm with
              | none => []
              | some members =>
                members.map (fun u =>
                  { text := "<@" ++ u ++ ">", color := level.value })) },
       Slackython.init url sup) := by
  cases title <;> cases tm <;>
    simp [Slackython.generate_message_slack, Slackython.init, foldl_append_map]

/-- The retry loop never performs more attempts than its budget. -/
lemma sendLoop_attempts_le (outcomes : Nat → AttemptOutcome) :
    ∀ (budget start : Nat),
      (sendLoop outcomes start budget).attempts ≤ budget
  | 0, start => by simp [sendLoop]
  | budget + 1, start => by
    have ih := sendLoop_attempts_le outcomes budget (start + 1)
    rcases h : outcomes start with code | _ | _ | e <;>
      simp [sendLoop, h] <;> try omega
    rcases eq_or_ne code 200 with hc | hc <;> simp [hc] <;> try omega

/-- No branch of the retry loop lets an exception escape. -/
lemma sendLoop_raised_none (outcomes : Nat → AttemptOutcome) :
    ∀ (budget start : Nat),
      (sendLoop outcomes start budget).raised = none
  | 0, start => by simp [sendLoop]
  | budget + 1, start => by
    have ih := sendLoop_raised_none outcomes budget (start + 1)
    rcases h : outcomes start with code | _ | _ | e <;>
      simp [sendLoop, h, ih]
    rcases eq_or_ne code 200 with hc | hc <;> simp [hc, ih]

/-- If the attempt at offset `k` is the first to return HTTP 200 and it is
within budget, the loop performs exactly `k + 1` attempts and stops. -/
lemma sendLoop_first_success (outcomes : Nat → AttemptOutcome) :
    ∀ (budget start k : Nat), k < budget →
      outcomes (start + k) = AttemptOutcome.response 200 →
      (∀ j, j < k → outcomes (start + j) ≠ AttemptOutcome.response 200) →
      (sendLoop outcomes start budget).attempts = k + 1
  | 0, start, k, hk, _, _ => absurd hk (Nat.not_lt_zero k)
  | budget + 1, start, 0, _, hsucc, _ => by
    rw [Nat.add_zero] at hsucc
    simp [sendLoop, hsucc]
  | budget + 1, start, k + 1, hk, hsucc, hfail => by
    have h0 : outcomes start ≠ AttemptOutcome.response 200 := by
      have := hfail 0 (Nat.succ_pos k)
      simpa using this
    have hs : outcomes (start + 1 + k) = AttemptOutcome.response 200 := by
      have : start + 1 + k = start + (k + 1) := by omega
      rw [this]; exact hsucc
    have hf : ∀ j, j < k →
        outcomes (start + 1 + j) ≠ AttemptOutcome.response 200 := by
      intro j hj
      have : start + 1 + j = start + (j + 1) := by omega
      rw [this]
      exact hfail (j + 1) (by omega)
    have ih := sendLoop_first_success outcomes budget (start + 1) k
      (by omega) hs hf
    rcases h : outcomes start with code | _ | _ | e <;>
      simp [sendLoop, h, ih] <;> try omega
    have hc : code ≠ 200 := by
      intro hc; exact h0 (by rw [h, hc])
    simp [hc, ih]
    omega

/-- While every attempt so far has failed and budget remains, the loop
proceeds to the next attempt: after `n` failures with `n < budget`, at
least `n + 1` attempts are performed. -/
lemma sendLoop_attempts_lower (outcomes : Nat → AttemptOutcome) :
    ∀ (n budget start : Nat), n < budget →
      (∀ j, j < n → outcomes (start + j) ≠ AttemptOutcome.response 200) →
      n + 1 ≤ (sendLoop outcomes start budget).attempts
  | 0, budget, start, hb, _ => by
    rcases budget with _ | b
    · omega
    rcases h : outcomes start with code | _ | _ | e <;>
      simp [sendLoop, h] <;> try omega
    rcases eq_or_ne code 200 with hc | hc <;> simp [hc]
  | n + 1, budget, start, hb, hfail => by
    rcases budget with _ | b
    · omega
    have h0 : outcomes start ≠ AttemptOutcome.response 200 := by
      have := hfail 0 (Nat.succ_pos n)
      simpa using this
    have hf : ∀ j, j < n →
        outcomes (start + 1 + j) ≠ AttemptOutcome.response 200 := by
      intro j hj
      have : start + 1 + j = start + (j + 1) := by omega
      rw [this]
      exact hfail (j + 1) (by omega)
    have ih := sendLoop_attempts_lower outcomes n b (start + 1)
      (by omega) hf
    rcases h : outcomes start with code | _ | _ | e <;>
      simp [sendLoop, h] <;> try omega
    have hc : code ≠ 200 := by
      intro hc; exact h0 (by rw [h, hc])
    simp [hc]
    omega

/-- When no attempt within the budget returns HTTP 200, the loop runs to
exhaustion: exactly `budget` attempts are performed. -/
lemma sendLoop_exhaust (outcomes : Nat → AttemptOutcome) :
    ∀ (budget start : Nat),
      (∀ j, j < budget → outcomes (start + j) ≠ AttemptOutcome.response 200) →
      (sendLoop outcomes start budget).attempts = budget
  | 0, start, _ => by simp [sendLoop]
  | budget + 1, start, hfail => by
    have h0 : outcomes start ≠ AttemptOutcome.response 200 := by
      have := hfail 0 (Nat.succ_pos budget)
      simpa using this
    have hf : ∀ j, j < budget →
        outcomes (start + 1 + j) ≠ AttemptOutcome.response 200 := by
      intro j hj
      have : start + 1 + j = start + (j + 1) := by omega
      rw [this]
      exact hfail (j + 1) (by omega)
    have ih := sendLoop_exhaust outcomes budget (start + 1) hf
    rcases h : outcomes start with code | _ | _ | e <;>
      simp [sendLoop, h, ih] <;> try omega
    have hc : code ≠ 200 := by
      intro hc; exact h0 (by rw [h, hc])
    simp [hc, ih]
    omega

/-- Projection helper: a notifier constructed with an explicit supervisor
list stores exactly that list. -/
lemma init_supervisors_some (url : String) (l : List String) :
    (Slackython.init url (some l)).slack_supervisors = l := rfl

/-- Projection helper: a notifier constructed without a supervisor list
stores the empty list. -/
lemma init_supervisors_none (url : String) :
    (Slackython.init url none).slack_supervisors = [] := rfl

/-- Claim C1: `send_error` with no explicit recipient list tags the
notifier's stored supervisor list, one mention block per supervisor in
order; an explicit recipient list entirely replaces the stored list (no
merge); and on the notifier with supervisors ["U1", "U2"],
`send_error "disk full"` builds exactly the payload of the end-to-end
example. -/
theorem send_error_recipient_selection (url m : String) (sup : List String)
    (title : Option String) (outcomes : Nat → AttemptOutcome) :
    ((Slackython.init url (some sup)).send_error m title none outcomes).1 =
      { text := title
        attachments :=
          { text := m, color := "#d50000" } ::
            sup.map (fun u =>
              { text := "<@" ++ u ++ ">", color := "#d50000" }) } ∧
    (∀ tm : List String,
      ((Slackython.init url (some sup)).send_error
          m title (some tm) outcomes).1 =
        { text := title
          attachments :=
            { text := m, color := "#d50000" } ::
              tm.map (fun u =>
                { text := "<@" ++ u ++ ">", color := "#d50000" }) }) ∧
    ((Slackython.init url (some ["U1", "U2"])).send_error
        "disk full" none none outcomes).1 =
      { text := none
        attachments :=
          [{ text := "disk full", color := "#d50000" },
           { text := "<@U1>", color := "#d50000" },
           { text := "<@U2>", color := "#d50000" }] } := by
  refine ⟨?_, ?_, ?_⟩ <;>
    simp [Slackython.send_error, init_supervisors_some, generate_init_spec,
      NotificationLevel.value]

/-- Claim C2: building a payload for a message with any severity, no
title and no recipients yields exactly one block, with text the message
and color the fixed color of the severity; and the fixed mapping is
NORMAL → "#00C853", INFORMATION → "#FFD600", CRITICAL → "#d50000". -/
theorem payload_single_block_colors (url m : String)
    (sup : Option (List String)) (level : NotificationLevel) :
    ((Slackython.init url sup).generate_message_slack m level none none).1 =
      { text := none
        attachments := [{ text := m, color := level.value }] } ∧
    NotificationLevel.NORMAL.value = "#00C853" ∧
    NotificationLevel.INFORMATION.value = "#FFD600" ∧
    NotificationLevel.CRITICAL.value = "#d50000" := by
  refine ⟨?_, rfl, rfl, rfl⟩
  simp [generate_init_spec]

/-- Claim C3: a payload built with recipient list R of length n has
exactly n + 1 blocks — the message block followed by one mention block
per recipient of R in original order, each with text "<@id>" and all in
the message block's severity color. -/
theorem payload_recipient_blocks (url m : String)
    (sup : Option (List String)) (level : NotificationLevel)
    (title : Option String) (R : List String) :
    ((Slackython.init url sup).generate_message_slack
        m level title (some R)).1.attachments =
      { text := m, color := level.value } ::
        R.map (fun u =>
          { text := "<@" ++ u ++ ">", color := level.value }) ∧
    ((Slackython.init url sup).generate_message_slack
        m level title (some R)).1.attachments.length = R.length + 1 := by
  simp [generate_init_spec]

/-- Claim C4: the transport performs at most `retries` sequential POST
attempts (default budget 3); it stops immediately at the first attempt
whose response status is 200, performing exactly k + 1 attempts when the
first success is at offset k; and after a failed attempt with budget
remaining it proceeds to the next attempt. -/
theorem transport_retry_budget (self : Slackython) (data : Payload)
    (outcomes : Nat → AttemptOutcome) (retries : Nat) :
    (self.send_to_webhook data outcomes retries).1.attempts ≤ retries ∧
    (∀ k, k < retries →
      outcomes k = AttemptOutcome.response 200 →
      (∀ j, j < k → outcomes j ≠ AttemptOutcome.response 200) →
      (self.send_to_webhook data outcomes retries).1.attempts = k + 1) ∧
    (∀ k, k < retries →
      (∀ j, j < k → outcomes j ≠ AttemptOutcome.response 200) →
      k + 1 ≤ (self.send_to_webhook data outcomes retries).1.attempts) ∧
    defaultRetries = 3 := by
  refine ⟨?_, ?_, ?_, rfl⟩
  · simpa [Slackython.send_to_webhook] using
      sendLoop_attempts_le outcomes retries 0
  · intro k hk hs hf
    simpa [Slackython.send_to_webhook] using
      sendLoop_first_success outcomes retries 0 k hk (by simpa using hs)
        (by simpa using hf)
  · intro k hk hf
    simpa [Slackython.send_to_webhook] using
      sendLoop_attempts_lower outcomes k retries 0 hk (by simpa using hf)

/-- Witness for C4: with a 500 response on the first attempt and a 200
response on the second, the transport performs exactly 2 of its 3
budgeted attempts. -/
theorem transport_retry_budget_witness :
    (fun k => if k = 0 then AttemptOutcome.response 500
              else AttemptOutcome.response 200) 1 =
        AttemptOutcome.response 200 ∧
    ((Slackython.init "url" none).send_to_webhook
        { text := none, attachments := [] }
        (fun k => if k = 0 then AttemptOutcome.response 500
                  else AttemptOutcome.response 200)
        3).1.attempts = 2 := by
  refine ⟨by decide, ?_⟩
  exact (transport_retry_budget (Slackython.init "url" none)
      { text := none, attachments := [] }
      (fun k => if k = 0 then AttemptOutcome.response 500
                else AttemptOutcome.response 200) 3).2.1
    1 (by decide) (by decide) (by decide)

/-- Claim C5: when no attempt within the budget returns HTTP 200
(timeouts, redirect errors, other transport failures and non-200
responses alike), the transport exhausts its whole budget and returns
normally — exactly `retries` attempts are performed and no exception
escapes to the caller. -/
theorem transport_exhausts_and_returns (self : Slackython) (data : Payload)
    (outcomes : Nat → AttemptOutcome) (retries : Nat)
    (h : ∀ j, j < retries → outcomes j ≠ AttemptOutcome.response 200) :
    (self.send_to_webhook data outcomes retries).1.attempts = retries ∧
    (self.send_to_webhook data outcomes retries).1.raised = none := by
  constructor
  · simpa [Slackython.send_to_webhook] using
      sendLoop_exhaust outcomes retries 0 (by simpa using h)
  · simpa [Slackython.send_to_webhook] using
      sendLoop_raised_none outcomes retries 0

/-- Witness for C5: with every attempt timing out, all 3 attempts of the
default budget are consumed and no exception escapes. -/
theorem transport_exhausts_and_returns_witness :
    (∀ j, j < 3 →
      (fun _ => AttemptOutcome.timeout) j ≠ AttemptOutcome.response 200) ∧
    ((Slackython.init "url" none).send_to_webhook
        { text := none, attachments := [] }
        (fun _ => AttemptOutcome.timeout) 3).1.attempts = 3 ∧
    ((Slackython.init "url" none).send_to_webhook
        { text := none, attachments := [] }
        (fun _ => AttemptOutcome.timeout) 3).1.raised = none := by
  refine ⟨by decide, ?_, ?_⟩
  · exact (transport_exhausts_and_returns (Slackython.init "url" none)
      { text := none, attachments := [] }
      (fun _ => AttemptOutcome.timeout) 3 (by decide)).1
  · exact (transport_exhausts_and_returns (Slackython.init "url" none)
      { text := none, attachments := [] }
      (fun _ => AttemptOutcome.timeout) 3 (by decide)).2

/-- Claim C6: the top-level title field of the built payload is exactly
the title passed to the call — present iff a title was explicitly
provided, absent otherwise. -/
theorem payload_title_iff_provided (url m : String)
    (sup : Option (List String)) (level : NotificationLevel)
    (title : Option String) (tm : Option (List String)) :
    ((Slackython.init url sup).generate_message_slack
        m level title tm).1.text = title ∧
    (((Slackython.init url sup).generate_message_slack
        m level title tm).1.text = none ↔ title = none) := by
  simp [generate_init_spec]

/-- Claim C7: every block of a payload built by a single call carries
the same color — the color of that call's severity; a single call never
mixes colors of different severities. -/
theorem payload_single_color (url m : String) (sup : Option (List String))
    (level : NotificationLevel) (title : Option String)
    (tm : Option (List String)) :
    ∀ a ∈ ((Slackython.init url sup).generate_message_slack
        m level title tm).1.attachments,
      a.color = level.value := by
  intro a ha
  rcases tm with _ | ms <;> simp [generate_init_spec] at ha
  · rw [ha]
  · rcases ha with ha | ⟨u, hu, ha⟩
    · rw [ha]
    · rw [← ha]

/-- Witness for C7: the message block of a concrete NORMAL-level payload
carries the NORMAL color. -/
theorem payload_single_color_witness :
    ({ text := "m", color := "#00C853" } : Attachment) ∈
      ((Slackython.init "url" none).generate_message_slack
          "m" NotificationLevel.NORMAL none none).1.attachments ∧
    ({ text := "m", color := "#00C853" } : Attachment).color = "#00C853" := by
  refine ⟨by decide, ?_⟩
  exact payload_single_color "url" "m" none NotificationLevel.NORMAL none none
    { text := "m", color := "#00C853" } (by decide)

/-- Claim C8: the payload builder and all three public send operations
leave the notifier's stored fields — webhook url, supervisor list and
templates — unchanged; in particular the stored recipient list is not
mutated even when `send_error` reads it for its default case. -/
theorem send_operations_preserve_state (self : Slackython) (m : String)
    (level : NotificationLevel) (title : Option String)
    (tm : Option (List String)) (outcomes : Nat → AttemptOutcome) :
    (self.generate_message_slack m level title tm).2 = self ∧
    (self.send_message m title tm outcomes).2.2 = self ∧
    (self.send_information m title tm outcomes).2.2 = self ∧
    (self.send_error m title tm outcomes).2.2 = self :=
  ⟨rfl, rfl, rfl, rfl⟩

/-- Claim C9: the builder produces identical payloads for an absent
(`None`) recipient list and an explicitly empty one — both yield exactly
the single message block and no mention blocks. -/
theorem payload_none_eq_empty_recipients (url m : String)
    (sup : Option (List String)) (level : NotificationLevel)
    (title : Option String) :
    (Slackython.init url sup).generate_message_slack m level title none =
      (Slackython.init url sup).generate_message_slack m level title
        (some []) ∧
    ((Slackython.init url sup).generate_message_slack
        m level title none).1.attachments =
      [{ text := m, color := level.value }] := by
  constructor
  · rw [generate_init_spec, generate_init_spec]
    simp
  · simp [generate_init_spec]

/-- Claim C10: a notifier constructed without a supervisor list stores
the empty list, so `send_error` on it with no explicit recipients builds
a payload with exactly one block and tags no one. -/
theorem init_default_supervisors_empty (url m : String)
    (title : Option String) (outcomes : Nat → AttemptOutcome) :
    (Slackython.init url none).slack_supervisors = [] ∧
    ((Slackython.init url none).send_error m title none outcomes).1 =
      { text := title
        attachments := [{ text := m, color := "#d50000" }] } ∧
    ((Slackython.init url none).send_error
        m title none outcomes).1.attachments.length = 1 := by
  refine ⟨rfl, ?_, ?_⟩ <;>
    simp [Slackython.send_error, init_supervisors_none, generate_init_spec,
      NotificationLevel.value]
